import Mathlib

/-!
Verification of the flux API gateway dispatch engine against its source.

The embedding mirrors, function by function, the Go sources:
  src/server/server.go          (FluxServer: route event loop, request handler,
                                 unified HTTP error adapter)
  src/unnamed/part_001          (WrappedContext: value cache over the web layer)
  src/filter/permisstion.go     (PermissionFilter and the Ensure* defaulting helpers)
  src/exchange/dubbo/exchange.go (Dubbo exchanger error mapping)

Code of the repository that is referenced from src/ but whose implementation is
not under src/ (the flux package constants and internal.MultiVersionEndpoint)
is modelled from the spec; such definitions carry a doc comment starting with
"Modelled from the spec:".
-/

namespace Flux

/-- Modelled from the spec: the flux package status constants are not under
src/; the spec states statusCode is the HTTP numeric status, and the concrete
codes (404, 400, 502, 500, 403) are named by the spec scenarios. -/
def StatusNotFound : Int := 404

/-- Modelled from the spec: HTTP 400 Bad Request. -/
def StatusBadRequest : Int := 400

/-- Modelled from the spec: HTTP 502 Bad Gateway. -/
def StatusBadGateway : Int := 502

/-- Modelled from the spec: HTTP 500, named StatusServerError in the flux package. -/
def StatusServerError : Int := 500

/-- Modelled from the spec: HTTP 403, named StatusForbidden in net/http. -/
def StatusForbidden : Int := 403

/-- Modelled from the spec: the stable error code GATEWAY:INTERNAL of the flux package. -/
def ErrorCodeGatewayInternal : String := "GATEWAY:INTERNAL"

/-- `flux.InvokeError` as used by src/server/server.go: HTTP status, message and
an optional internal cause (the cause is modelled by its description string). -/
structure InvokeError where
  statusCode : Int
  message : String
  internal : Option String
deriving DecidableEq, Repr

/-- `flux.StateError` as used by src/filter/permisstion.go: HTTP status, stable
error code, message and an optional internal cause. -/
structure StateError where
  statusCode : Int
  errorCode : String
  message : String
  internal : Option String
deriving DecidableEq, Repr

/-- Modelled from the spec: `flux.BackendService` is not under src/; the spec
data model gives a callable upstream specification proto/host/uri/method. -/
structure BackendService where
  proto : String
  host : String
  uri : String
  method : String
deriving DecidableEq, Repr

/-- Modelled from the spec: `BackendService.IsValid` is called from
src/filter/permisstion.go but not defined under src/; the spec describes a
BackendService as a callable upstream specification, so validity is modelled
as having a callable selector (non-empty uri and method). -/
def BackendService.IsValid (s : BackendService) : Bool :=
  s.uri != "" && s.method != ""

/-- `flux.Endpoint` restricted to the fields the verified code paths read
(src/server/server.go, src/filter/permisstion.go, src/exchange/dubbo/exchange.go). -/
structure Endpoint where
  httpMethod : String
  httpPattern : String
  version : String
  authorize : Bool
  permission : BackendService
  permissions : List String
  upstreamUri : String
  upstreamMethod : String
deriving DecidableEq, Repr

/-- Modelled from the spec: `internal.MultiVersionEndpoint` is referenced from
src/server/server.go but its implementation is not under src/. The spec data
model describes it as a container holding version to Endpoint, with
get(version), update(version, endpoint) and delete(version); it is modelled as
a finite partial map from version strings to endpoints. The fallback to the
default version slot described by the spec is performed by the handler in
src/server/server.go (generateRouter), which is embedded below from source. -/
def Mve : Type := String → Option Endpoint

/-- Modelled from the spec: the empty MultiVersionEndpoint created by
`internal.NewMultiVersionEndpoint()`. -/
def mveEmpty : Mve := fun _ => none

/-- Modelled from the spec: `MultiVersionEndpoint.Update(version, endpoint)`
replaces the slot of that version. -/
def mveUpdate (version : String) (ep : Endpoint) (m : Mve) : Mve :=
  fun v => if v = version then some ep else m v

/-- Modelled from the spec: `MultiVersionEndpoint.Delete(version)` removes the
slot of that version. -/
def mveDelete (version : String) (m : Mve) : Mve :=
  fun v => if v = version then none else m v

/-- Modelled from the spec: `MultiVersionEndpoint.Get(version)` looks the slot
up by version. -/
def mveGet (m : Mve) (version : String) : Option Endpoint := m version

/-- The `endpointMvMap` field of FluxServer (src/server/server.go line 58):
a map from routing key strings to MultiVersionEndpoint. -/
def Table : Type := String → Option Mve

/-- Pointwise insertion into the endpoint map. -/
def tableInsert (t : Table) (k : String) (m : Mve) : Table :=
  fun k2 => if k2 = k then some m else t k2

/-- Event types of `flux.EndpointEvent` (Added, Updated, Removed). -/
inductive EventType where
  | added
  | updated
  | removed
deriving DecidableEq, Repr

/-- `flux.EndpointEvent` as read by handleHttpRouteEvent: the event carries its
own HttpMethod and HttpPattern besides the endpoint payload. -/
structure EndpointEvent where
  type : EventType
  httpMethod : String
  httpPattern : String
  endpoint : Endpoint
deriving Repr

/-- Replacement of every occurrence of a single character; the two
strings.Replace calls of the source both use one-character patterns, so the Go
call strings.Replace(s, old, new, -1) is embedded character-wise. -/
def replaceChar (old : Char) (new : List Char) : List Char → List Char
  | [] => []
  | c :: rest =>
      if c = old then new ++ replaceChar old new rest
      else c :: replaceChar old new rest

/-- strings.ToUpper restricted to ASCII, which covers HTTP method names. -/
def goToUpper (s : String) : String :=
  String.mk (s.data.map Char.toUpper)

/-- `FluxServer.toHttpServerPattern` (src/server/server.go lines 236-244):
rewrites /api/\x7buserId\x7d into /api/:userId. -/
def toHttpServerPattern (uri : String) : String :=
  let replaced := String.mk (replaceChar '}' [] uri.data)
  if replaced.length < uri.length then
    String.mk (replaceChar '{' [':'] replaced.data)
  else
    uri

/-- The routing key of an event, `fmt.Sprintf("%s#%s", event.HttpMethod, pattern)`
(src/server/server.go line 133); note it uses the raw event method. -/
def routeKeyOf (ev : EndpointEvent) : String :=
  ev.httpMethod ++ "#" ++ toHttpServerPattern ev.httpPattern

/-- `FluxServer.getVersionEndpoint` (src/server/server.go lines 246-254):
returns the existing entry, or creates and stores a fresh empty one; the Bool
is the isNew flag; the third component is the endpoint map after the call. -/
def getVersionEndpoint (t : Table) (routeKey : String) : Mve × Bool × Table :=
  match t routeKey with
  | some mve => (mve, false, t)
  | none => (mveEmpty, true, tableInsert t routeKey mveEmpty)

/-- The canonical set of supported HTTP methods checked by
handleHttpRouteEvent (src/server/server.go lines 138-140). -/
def allowedMethods : List String :=
  ["GET", "POST", "DELETE", "PUT", "HEAD", "OPTIONS", "PATCH", "TRACE"]

/-- Normalization of the endpoint method,
`event.Endpoint.HttpMethod = strings.ToUpper(...)` (src/server/server.go line 136). -/
def normalizeEndpoint (ep : Endpoint) : Endpoint :=
  { ep with httpMethod := goToUpper ep.httpMethod }

/-- State of the route event loop: the endpoint map plus the ordered list of
(method, pattern) route registrations issued to the embedded HTTP server via
`fs.httpServer.Add` (src/server/server.go line 153). -/
structure RouterState where
  table : Table
  registered : List (String × String)

/-- One iteration of `FluxServer.handleHttpRouteEvent`
(src/server/server.go lines 130-163). Mirrors the source order: the routing
key entry is retrieved or created first, then the endpoint method is
normalized and checked, then the event is applied; registration with the HTTP
server happens only in the Added branch and only when the entry was new. -/
def handleEvent (s : RouterState) (ev : EndpointEvent) : RouterState :=
  let routeKey := routeKeyOf ev
  let gve := getVersionEndpoint s.table routeKey
  let vEndpoint := gve.1
  let isNew := gve.2.1
  let table0 := gve.2.2
  let e := normalizeEndpoint ev.endpoint
  if (allowedMethods.contains e.httpMethod) = false then
    { table := table0, registered := s.registered }
  else
    match ev.type with
    | .added =>
        { table := tableInsert table0 routeKey (mveUpdate e.version e vEndpoint)
          registered :=
            if isNew then
              s.registered ++ [(ev.httpMethod, toHttpServerPattern ev.httpPattern)]
            else
              s.registered }
    | .updated =>
        { table := tableInsert table0 routeKey (mveUpdate e.version e vEndpoint)
          registered := s.registered }
    | .removed =>
        { table := tableInsert table0 routeKey (mveDelete e.version vEndpoint)
          registered := s.registered }

/-- The initial state of the event loop: empty endpoint map, nothing registered
(NewFluxServer, src/server/server.go lines 63-70). -/
def initialState : RouterState :=
  { table := fun _ => none, registered := [] }

/-- Draining a whole sequence of registry events, in channel order. -/
def runEvents (evs : List EndpointEvent) : RouterState :=
  evs.foldl handleEvent initialState

/-- Lookup of the endpoint stored for a routing key and version. -/
def tableLookup (s : RouterState) (k v : String) : Option Endpoint :=
  match s.table k with
  | some m => m v
  | none => none

/-- Whether a routing key is present in the endpoint map. -/
def keyPresent (s : RouterState) (k : String) : Bool :=
  (s.table k).isSome

/-- The routing key a registration record corresponds to. -/
def regKeyOf (r : String × String) : String := r.1 ++ "#" ++ r.2

/-- How many route registrations were issued for a given routing key. -/
def countKey (l : List (String × String)) (k : String) : Nat :=
  (l.filter (fun r => regKeyOf r == k)).length

/-- The default version header name, defaultHttpVersionHeader
(src/server/server.go line 27). -/
def defaultHttpVersionHeader : String := "X-Version"

/-- The default version slot, defaultHttpVersionValue
(src/server/server.go line 28). -/
def defaultHttpVersionValue : String := "v1"

/-- Resolution of the configured version header name,
httpConfig.StringOrDefault(configHttpVersionHeader, defaultHttpVersionHeader)
(src/server/server.go line 76); the HttpServer config section is modelled as a
partial string map. -/
def configuredVersionHeader (cfg : String → Option String) : String :=
  (cfg "version-header").getD defaultHttpVersionHeader

/-- errEndpointVersionNotFound (src/server/server.go lines 43-48). -/
def errEndpointVersionNotFound : InvokeError :=
  { statusCode := StatusNotFound
    message := "ENDPOINT_VERSION_NOT_FOUND"
    internal := none }

/-- Outcome of the `fs.dispatcher.Dispatch(newCtx)` call made by the route
handler: success, a returned InvokeError, or a panic raised while the filter
chain or the backend runs (modelled by its description string). -/
inductive DispatchOutcome where
  | ok
  | fail (e : InvokeError)
  | panics (msg : String)
deriving Repr

/-- Everything observable about one run of the route handler returned by
`FluxServer.generateRouter`: the endpoint the request was served with, the
error value the handler returns to the HTTP framework, whether the success
response writer ran, whether ParseForm was attempted, whether the dispatcher
(filter chain and backend exchanger) was invoked, and the recovered panic, if
any, which the deferred recover logs. -/
structure HandlerRun where
  servedEndpoint : Option Endpoint
  returnedError : Option InvokeError
  wroteResponse : Bool
  formParsed : Bool
  dispatched : Bool
  recoveredPanic : Option String
deriving Repr

/-- The handler body after a version slot was found (src/server/server.go
lines 191-210): eager ParseForm (a parse failure is modelled by the some case
of parseFormError), then Dispatch, then the response writer. A panic raised
during dispatch is caught by the deferred recover (lines 178-182), which only
logs it; the handler then returns the zero error value, so the framework sees
no error and no response body is written. -/
def handlerAfterLookup (ep : Endpoint) (parseFormError : Option String)
    (dispatch : DispatchOutcome) : HandlerRun :=
  match parseFormError with
  | some msg =>
      { servedEndpoint := some ep
        returnedError := some
          { statusCode := StatusBadRequest
            message := "REQUEST:FORM_PARSING"
            internal := some msg }
        wroteResponse := false
        formParsed := true
        dispatched := false
        recoveredPanic := none }
  | none =>
      match dispatch with
      | .ok =>
          { servedEndpoint := some ep
            returnedError := none
            wroteResponse := true
            formParsed := true
            dispatched := true
            recoveredPanic := none }
      | .fail e =>
          { servedEndpoint := some ep
            returnedError := some e
            wroteResponse := false
            formParsed := true
            dispatched := true
            recoveredPanic := none }
      | .panics msg =>
          { servedEndpoint := some ep
            returnedError := none
            wroteResponse := false
            formParsed := true
            dispatched := true
            recoveredPanic := some msg }

/-- The route handler returned by `FluxServer.generateRouter`
(src/server/server.go lines 176-212). headerValue is the value of the
configured version header on the request; the Go header getter yields the
empty string when the header is absent. The endpoint is first looked up under
headerValue, then under the default slot v1; if both lookups miss the handler
returns errEndpointVersionNotFound before ParseForm and before Dispatch. -/
def generateRouter (mv : Mve) (headerValue : String) (parseFormError : Option String)
    (dispatch : DispatchOutcome) : HandlerRun :=
  match mveGet mv headerValue with
  | some ep => handlerAfterLookup ep parseFormError dispatch
  | none =>
      match mveGet mv defaultHttpVersionValue with
      | some ep => handlerAfterLookup ep parseFormError dispatch
      | none =>
          { servedEndpoint := none
            returnedError := some errEndpointVersionNotFound
            wroteResponse := false
            formParsed := false
            dispatched := false
            recoveredPanic := none }

/-- The error values reaching the unified HTTP error adapter: either an
InvokeError produced by the gateway, or any other Go error (modelled by its
description string). -/
inductive GoError where
  | invoke (e : InvokeError)
  | other (desc : String)
deriving Repr

/-- `FluxServer.httpErrorAdapting` (src/server/server.go lines 214-234):
the triple handed to the HTTP error writer, namely the request id, the
response headers, and the InvokeError written. A non-InvokeError is rewritten
with StatusBadRequest and message REQUEST:FORM_PARSING, its cause kept
internal; an InvokeError passes through unchanged. The routed context, when
one was stored for the request, supplies the request id and headers; otherwise
the synthetic id $proxy and empty headers are used. -/
def httpErrorAdapting (err : GoError)
    (routedContext : Option (String × List (String × String))) :
    String × List (String × String) × InvokeError :=
  let iErr :=
    match err with
    | .invoke e => e
    | .other desc =>
        { statusCode := StatusBadRequest
          message := "REQUEST:FORM_PARSING"
          internal := some desc }
  match routedContext with
  | some (requestId, headers) => (requestId, headers, iErr)
  | none => ("$proxy", [], iErr)

/-- `WrappedContext` (src/unnamed/part_001) restricted to the fields the value
operations touch: the local value cache and the web layer values, both partial
maps; the value type is a parameter. -/
structure WrappedContext (α : Type) where
  values : String → Option α
  webcValues : String → Option α

/-- `WrappedContext.SetValue` (src/unnamed/part_001 lines 89-91): stores into
the local value cache. -/
def WrappedContext.SetValue (c : WrappedContext α) (name : String) (v : α) :
    WrappedContext α :=
  { c with values := fun n => if n = name then some v else c.values n }

/-- `WrappedContext.GetValue` (src/unnamed/part_001 lines 93-103): the local
value cache first, then the web layer values if non-nil, else reports absence.
The Go return convention of a value and an ok flag is kept. -/
def WrappedContext.GetValue (c : WrappedContext α) (name : String) :
    Option α × Bool :=
  match c.values name with
  | some lv => (some lv, true)
  | none =>
      match c.webcValues name with
      | some cv => (some cv, true)
      | none => (none, false)

/-- `PermissionVerifyReport` (src/filter/permisstion.go lines 24-29). -/
structure PermissionVerifyReport where
  statusCode : Int
  success : Bool
  errorCode : String
  message : String
deriving DecidableEq, Repr

/-- `ErrorCodePermissionDenied` (src/filter/permisstion.go line 19). -/
def ErrorCodePermissionDenied : String := "PERMISSION:ACCESS_DENIED"

/-- `EnsurePermissionStatusCode` (src/filter/permisstion.go lines 150-155). -/
def EnsurePermissionStatusCode (status : Int) : Int :=
  if status < 100 then StatusForbidden else status

/-- `EnsurePermissionErrorCode` (src/filter/permisstion.go lines 157-162). -/
def EnsurePermissionErrorCode (code : String) : String :=
  if code = "" then ErrorCodePermissionDenied else code

/-- `EnsurePermissionMessage` (src/filter/permisstion.go lines 164-169). -/
def EnsurePermissionMessage (message : String) : String :=
  if message = "" then ErrorCodePermissionDenied else message

/-- Outcome of the user-supplied VerifyFunc: a report, a StateError, or any
other Go error (modelled by its description string). -/
inductive VerifyOutcome where
  | report (r : PermissionVerifyReport)
  | stateError (e : StateError)
  | otherError (desc : String)
deriving Repr

/-- What the filter handler built by DoFilter does with one request: either it
calls next (so the chain continues towards the backend exchanger) or it
short-circuits with a StateError without invoking next. -/
inductive FilterStep where
  | delegated
  | errored (e : StateError)
deriving DecidableEq, Repr

/-- The service collection loop of DoFilter (src/filter/permisstion.go lines
110-121): ids are resolved through ext.LoadBackendService in order; the first
unresolvable id aborts with the PERMISSION:SERVICE:NOT_FOUND StateError. -/
def collectServices (lookup : String → Option BackendService) :
    List String → List BackendService → Except StateError (List BackendService)
  | [], acc => .ok acc
  | id :: rest, acc =>
      match lookup id with
      | some srv => collectServices lookup rest (acc ++ [srv])
      | none =>
          .error
            { statusCode := StatusServerError
              errorCode := ErrorCodeGatewayInternal
              message := "PERMISSION:SERVICE:NOT_FOUND"
              internal := some ("service not found, id: " ++ id) }

/-- `PermissionFilter.DoFilter` (src/filter/permisstion.go lines 87-143).
disabled is the filter Disabled flag; skip is the value of SkipFunc on this
request; lookup is ext.LoadBackendService; verify is the configured VerifyFunc
applied to the collected services. -/
def DoFilter (disabled : Bool) (skip : Bool) (ep : Endpoint)
    (lookup : String → Option BackendService)
    (verify : List BackendService → VerifyOutcome) : FilterStep :=
  if disabled then .delegated
  else if skip then .delegated
  else if ep.authorize = false then .delegated
  else if ep.permissions.length = 0 && !ep.permission.IsValid then .delegated
  else
    let base := if ep.permission.IsValid then [ep.permission] else []
    match collectServices lookup ep.permissions base with
    | .error e => .errored e
    | .ok services =>
        match verify services with
        | .stateError e => .errored e
        | .otherError desc =>
            .errored
              { statusCode := StatusForbidden
                errorCode := ErrorCodeGatewayInternal
                message := "PERMISSION:VERIFY:ERROR"
                internal := some desc }
        | .report r =>
            if !r.success then
              .errored
                { statusCode := EnsurePermissionStatusCode r.statusCode
                  errorCode := EnsurePermissionErrorCode r.errorCode
                  message := EnsurePermissionMessage r.message
                  internal := none }
            else .delegated

/-- `ErrMessageInvoke` (src/exchange/dubbo/exchange.go line 25). -/
def ErrMessageInvoke : String := "DUBBO_RPC:INVOKE"

/-- `exchange.Invoke` of the Dubbo exchanger (src/exchange/dubbo/exchange.go
lines 57-83), with the outcome of the generic RPC call supplied as a
parameter: on a transport error the exchanger returns a nil result and an
InvokeError with StatusBadGateway, the constant message ErrMessageInvoke, and
the transport error kept as the internal cause; on success the raw response
passes through with no error. -/
def dubboInvoke (α : Type) (rpcResult : Except String α) :
    Option α × Option InvokeError :=
  match rpcResult with
  | .error e =>
      (none, some
        { statusCode := StatusBadGateway
          message := ErrMessageInvoke
          internal := some e })
  | .ok resp => (some resp, none)

/-- A backend service reference with no upstream selector. -/
def noService : BackendService :=
  { proto := "", host := "", uri := "", method := "" }

/-- A concrete GET endpoint at version v1, used as test input. -/
def epGetV1 : Endpoint :=
  { httpMethod := "GET"
    httpPattern := "/x"
    version := "v1"
    authorize := false
    permission := noService
    permissions := []
    upstreamUri := "com.x.Svc"
    upstreamMethod := "get" }

/-- An Added event for epGetV1. -/
def evAddedGetX : EndpointEvent :=
  { type := .added, httpMethod := "GET", httpPattern := "/x", endpoint := epGetV1 }

/-- An Updated event for epGetV1, carrying the same routing key. -/
def evUpdatedGetX : EndpointEvent :=
  { type := .updated, httpMethod := "GET", httpPattern := "/x", endpoint := epGetV1 }

/-- A Removed event for epGetV1 at version v1. -/
def evRemovedGetX : EndpointEvent :=
  { type := .removed, httpMethod := "GET", httpPattern := "/x", endpoint := epGetV1 }

/-- An event whose endpoint method normalizes to CONNECT, which is outside the
canonical method set. -/
def evConnect : EndpointEvent :=
  { type := .added
    httpMethod := "CONNECT"
    httpPattern := "/c"
    endpoint := { epGetV1 with httpMethod := "connect", httpPattern := "/c" } }

/-- A MultiVersionEndpoint holding only the default v1 slot. -/
def mvV1 : Mve := mveUpdate "v1" epGetV1 mveEmpty

/-- A context fixture: the local cache holds key a, the web layer holds key b. -/
def ctxFixture : WrappedContext Nat :=
  { values := fun n => if n = "a" then some 1 else none
    webcValues := fun n => if n = "b" then some 2 else none }

/-- A resolvable permission backend service. -/
def permSvc : BackendService :=
  { proto := "dubbo", host := "", uri := "com.perm.Svc", method := "verify" }

/-- An endpoint requiring authorization with one referenced permission id. -/
def epAuth : Endpoint :=
  { epGetV1 with authorize := true, permissions := ["perm1"] }

/-- A service registry resolving exactly the id perm1. -/
def permLookup : String → Option BackendService :=
  fun id => if id = "perm1" then some permSvc else none

/-- The denial report of the C8 scenario: success false, error code
PERMISSION:ACCESS_DENIED, zero-valued status and message. -/
def deniedReport : PermissionVerifyReport :=
  { statusCode := 0
    success := false
    errorCode := "PERMISSION:ACCESS_DENIED"
    message := "" }

/-- A verification function that always returns the denial report. -/
def denyVerify : List BackendService → VerifyOutcome :=
  fun _ => .report deniedReport

/-- The invariant of the route event loop used for the registration proofs:
every routing key has been registered at most once, and a registered key is
present in the endpoint map. -/
def RegInv (s : RouterState) : Prop :=
  ∀ k, countKey s.registered k ≤ 1 ∧
    (0 < countKey s.registered k → (s.table k).isSome = true)

/-- Let-free unfolding of handleEvent, for rewriting. -/
theorem handleEvent_eq (s : RouterState) (ev : EndpointEvent) :
    handleEvent s ev =
      if allowedMethods.contains (normalizeEndpoint ev.endpoint).httpMethod = false then
        { table := (getVersionEndpoint s.table (routeKeyOf ev)).2.2
          registered := s.registered }
      else
        match ev.type with
        | .added =>
            { table :=
                tableInsert (getVersionEndpoint s.table (routeKeyOf ev)).2.2
                  (routeKeyOf ev)
                  (mveUpdate (normalizeEndpoint ev.endpoint).version
                    (normalizeEndpoint ev.endpoint)
                    (getVersionEndpoint s.table (routeKeyOf ev)).1)
              registered :=
                if (getVersionEndpoint s.table (routeKeyOf ev)).2.1 then
                  s.registered ++ [(ev.httpMethod, toHttpServerPattern ev.httpPattern)]
                else s.registered }
        | .updated =>
            { table :=
                tableInsert (getVersionEndpoint s.table (routeKeyOf ev)).2.2
                  (routeKeyOf ev)
                  (mveUpdate (normalizeEndpoint ev.endpoint).version
                    (normalizeEndpoint ev.endpoint)
                    (getVersionEndpoint s.table (routeKeyOf ev)).1)
              registered := s.registered }
        | .removed =>
            { table :=
                tableInsert (getVersionEndpoint s.table (routeKeyOf ev)).2.2
                  (routeKeyOf ev)
                  (mveDelete (normalizeEndpoint ev.endpoint).version
                    (getVersionEndpoint s.table (routeKeyOf ev)).1)
              registered := s.registered } := rfl

/-- getVersionEndpoint on a present key: returns it, not new, map unchanged. -/
theorem gve_some (t : Table) (k : String) (m : Mve) (h : t k = some m) :
    getVersionEndpoint t k = (m, false, t) := by
  unfold getVersionEndpoint
  rw [h]

/-- getVersionEndpoint on an absent key: fresh empty entry, marked new. -/
theorem gve_none (t : Table) (k : String) (h : t k = none) :
    getVersionEndpoint t k = (mveEmpty, true, tableInsert t k mveEmpty) := by
  unfold getVersionEndpoint
  rw [h]

/-- C1: a request whose version header value (under the configured
version-header name, which defaults to X-Version) does not match any stored
version — the absent header reads as the empty string in Go and therefore
matches no slot of a well-formed table — is served from the default version
slot v1; when the v1 slot is also absent the handler returns the 404
ENDPOINT_VERSION_NOT_FOUND error before form parsing and before the dispatcher
(filter chain and backend exchanger) runs. -/
theorem version_fallback_c1 (mv : Mve) (headerValue : String)
    (pf : Option String) (dp : DispatchOutcome)
    (hmiss : mveGet mv headerValue = none) :
    configuredVersionHeader (fun _ => none) = defaultHttpVersionHeader
    ∧ (generateRouter mv headerValue pf dp).servedEndpoint
        = mveGet mv defaultHttpVersionValue
    ∧ (mveGet mv defaultHttpVersionValue = none →
        (generateRouter mv headerValue pf dp).returnedError
            = some errEndpointVersionNotFound
        ∧ errEndpointVersionNotFound.statusCode = 404
        ∧ errEndpointVersionNotFound.message = "ENDPOINT_VERSION_NOT_FOUND"
        ∧ (generateRouter mv headerValue pf dp).formParsed = false
        ∧ (generateRouter mv headerValue pf dp).dispatched = false) := by
  refine ⟨rfl, ?_, ?_⟩
  · unfold generateRouter
    rw [hmiss]
    cases h : mveGet mv defaultHttpVersionValue with
    | none => rfl
    | some ep =>
        cases pf with
        | some msg => rfl
        | none => cases dp <;> rfl
  · intro hdef
    unfold generateRouter
    rw [hmiss, hdef]
    exact ⟨rfl, rfl, rfl, rfl, rfl⟩

/-- Witness for C1 at a concrete input: the empty table stores no version, so
the unknown header value v2 yields the 404 ENDPOINT_VERSION_NOT_FOUND error
with no form parsing. -/
theorem version_fallback_c1_witness :
    mveGet mveEmpty "v2" = none
    ∧ (generateRouter mveEmpty "v2" none .ok).returnedError
        = some errEndpointVersionNotFound
    ∧ (generateRouter mveEmpty "v2" none .ok).formParsed = false :=
  ⟨rfl,
    ((version_fallback_c1 mveEmpty "v2" none .ok rfl).2.2 rfl).1,
    ((version_fallback_c1 mveEmpty "v2" none .ok rfl).2.2 rfl).2.2.2.1⟩

/-- C6: reading a value returns the local value-cache entry when one exists,
otherwise the web layer value for that name when it is non-nil, and otherwise
reports absence; writing stores only into the local cache and never touches
the web layer values. -/
theorem value_precedence_c6 (α : Type) (c : WrappedContext α) (name : String)
    (v : α) :
    (∀ lv, c.values name = some lv → c.GetValue name = (some lv, true))
    ∧ (c.values name = none →
        ∀ cv, c.webcValues name = some cv → c.GetValue name = (some cv, true))
    ∧ (c.values name = none → c.webcValues name = none →
        c.GetValue name = (none, false))
    ∧ (c.SetValue name v).webcValues = c.webcValues
    ∧ (c.SetValue name v).values name = some v
    ∧ (∀ n, n ≠ name → (c.SetValue name v).values n = c.values n) := by
  refine ⟨?_, ?_, ?_, rfl, ?_, ?_⟩
  · intro lv h
    unfold WrappedContext.GetValue
    rw [h]
  · intro h cv h2
    unfold WrappedContext.GetValue
    rw [h, h2]
  · intro h h2
    unfold WrappedContext.GetValue
    rw [h, h2]
  · unfold WrappedContext.SetValue
    simp
  · intro n hn
    unfold WrappedContext.SetValue
    simp [hn]

/-- Witness for C6 at a concrete context: the local cache entry for key a wins
over the web layer. -/
theorem value_precedence_c6_witness :
    ctxFixture.values "a" = some 1
    ∧ ctxFixture.GetValue "a" = (some 1, true) :=
  ⟨rfl, (value_precedence_c6 Nat ctxFixture "a" 0).1 1 rfl⟩

/-- C9: when the Dubbo generic invocation fails, Invoke returns a nil result
together with an InvokeError carrying HTTP status 502 and the constant message
DUBBO_RPC:INVOKE, the transport error being kept as the internal cause and not
placed in the message; a successful invocation passes the raw response through
with no error. -/
theorem dubbo_error_c9 (α : Type) (e : String) (v : α) :
    dubboInvoke α (.error e)
      = (none, some
          { statusCode := StatusBadGateway
            message := ErrMessageInvoke
            internal := some e })
    ∧ StatusBadGateway = 502
    ∧ ErrMessageInvoke = "DUBBO_RPC:INVOKE"
    ∧ dubboInvoke α (.ok v) = (some v, none) :=
  ⟨rfl, rfl, rfl, rfl⟩

/-- C10: the unified HTTP error adapter rewrites every non-InvokeError as an
InvokeError with status 400 and message REQUEST:FORM_PARSING (the original
error kept internal), passes an InvokeError through unchanged, and falls back
to the synthetic request id $proxy with empty headers when no routed context
was stored for the request. -/
theorem error_adapting_c10 (e : InvokeError) (desc : String)
    (requestId : String) (headers : List (String × String)) :
    httpErrorAdapting (.other desc) (some (requestId, headers))
      = (requestId, headers,
          { statusCode := StatusBadRequest
            message := "REQUEST:FORM_PARSING"
            internal := some desc })
    ∧ httpErrorAdapting (.invoke e) (some (requestId, headers))
      = (requestId, headers, e)
    ∧ httpErrorAdapting (.other desc) none
      = ("$proxy", [],
          { statusCode := StatusBadRequest
            message := "REQUEST:FORM_PARSING"
            internal := some desc })
    ∧ httpErrorAdapting (.invoke e) none = ("$proxy", [], e)
    ∧ StatusBadRequest = 400 :=
  ⟨rfl, rfl, rfl, rfl, rfl⟩

/-- Counterexample to C7 at a concrete input: a request served from the v1
slot whose dispatch panics. The deferred recover catches and logs the panic,
but the handler then returns the zero error value: no error response at all is
produced for the client, contradicting the claimed StatusServerError and
GATEWAY:INTERNAL error response. -/
theorem panic_recovery_c7_counterexample :
    (generateRouter mvV1 "v1" none (.panics "boom")).recoveredPanic = some "boom"
    ∧ (generateRouter mvV1 "v1" none (.panics "boom")).returnedError = none
    ∧ (generateRouter mvV1 "v1" none (.panics "boom")).wroteResponse = false :=
  ⟨rfl, rfl, rfl⟩

/-- C7 as amended: a panic raised while the dispatcher runs is recovered (so
the handler always returns and the server process does not crash) and the
panic value is logged, but no error response is produced: the handler returns
no error and writes no response. -/
theorem panic_recovery_c7 (mv : Mve) (headerValue : String) (msg : String)
    (ep : Endpoint) (h : mveGet mv headerValue = some ep) :
    (generateRouter mv headerValue none (.panics msg)).recoveredPanic = some msg
    ∧ (generateRouter mv headerValue none (.panics msg)).returnedError = none
    ∧ (generateRouter mv headerValue none (.panics msg)).wroteResponse = false := by
  unfold generateRouter
  rw [h]
  exact ⟨rfl, rfl, rfl⟩

/-- Witness for C7 as amended, at a concrete panicking request. -/
theorem panic_recovery_c7_witness :
    mveGet mvV1 "v1" = some epGetV1
    ∧ (generateRouter mvV1 "v1" none (.panics "oops")).returnedError = none :=
  ⟨rfl, (panic_recovery_c7 mvV1 "v1" "oops" epGetV1 rfl).2.1⟩

/-- C8: with the filter enabled and not skipped, an endpoint requiring
authorization whose permission verification reports a denial with error code
PERMISSION:ACCESS_DENIED (and a status below 100, as in the zero-valued report
of the scenario) makes the permission filter short-circuit with a 403
StateError carrying that code, without delegating to next — so the backend
exchanger is never invoked; status codes below 100 always default to 403 and
empty error codes default to PERMISSION:ACCESS_DENIED. -/
theorem permission_denial_c8 (ep : Endpoint)
    (lookup : String → Option BackendService)
    (verify : List BackendService → VerifyOutcome)
    (services : List BackendService) (r : PermissionVerifyReport)
    (hauth : ep.authorize = true)
    (hsome : (ep.permissions.length = 0 && !ep.permission.IsValid) = false)
    (hcollect : collectServices lookup ep.permissions
        (if ep.permission.IsValid then [ep.permission] else []) = .ok services)
    (hverify : verify services = .report r)
    (hsucc : r.success = false)
    (hcode : r.errorCode = ErrorCodePermissionDenied)
    (hstatus : r.statusCode < 100) :
    DoFilter false false ep lookup verify
      = .errored
          { statusCode := StatusForbidden
            errorCode := ErrorCodePermissionDenied
            message := EnsurePermissionMessage r.message
            internal := none }
    ∧ DoFilter false false ep lookup verify ≠ .delegated
    ∧ StatusForbidden = 403
    ∧ (∀ sc : Int, sc < 100 → EnsurePermissionStatusCode sc = StatusForbidden)
    ∧ EnsurePermissionErrorCode "" = ErrorCodePermissionDenied := by
  have h1 : EnsurePermissionStatusCode r.statusCode = StatusForbidden := by
    rw [EnsurePermissionStatusCode, if_pos hstatus]
  have h2 : EnsurePermissionErrorCode r.errorCode = ErrorCodePermissionDenied := by
    rw [hcode]
    decide
  have hmain : DoFilter false false ep lookup verify
      = .errored
          { statusCode := StatusForbidden
            errorCode := ErrorCodePermissionDenied
            message := EnsurePermissionMessage r.message
            internal := none } := by
    unfold DoFilter
    rw [if_neg (by simp), if_neg (by simp), if_neg (by simp [hauth]),
      if_neg (by
        simp only [Bool.and_eq_true, decide_eq_true_eq, Bool.not_eq_true',
          not_and, List.length_eq_zero]
        intro hnil
        simpa [hnil] using hsome)]
    simp only [hcollect, hverify, hsucc, h1, h2, Bool.not_false, if_true]
  refine ⟨hmain, ?_, rfl, ?_, rfl⟩
  · rw [hmain]
    simp
  · intro sc hsc
    rw [EnsurePermissionStatusCode, if_pos hsc]

/-- Witness for C8 at a concrete denied request: the filter short-circuits
with the 403 PERMISSION:ACCESS_DENIED StateError. -/
theorem permission_denial_c8_witness :
    epAuth.authorize = true
    ∧ deniedReport.success = false
    ∧ deniedReport.statusCode < 100
    ∧ DoFilter false false epAuth permLookup denyVerify
        = .errored
            { statusCode := 403
              errorCode := "PERMISSION:ACCESS_DENIED"
              message := "PERMISSION:ACCESS_DENIED"
              internal := none } :=
  ⟨rfl, rfl, by decide,
    (permission_denial_c8 epAuth permLookup denyVerify [permSvc] deniedReport
      rfl (by decide) rfl rfl rfl rfl (by decide)).1⟩

/-- Counterexample to C3 at a concrete input: an Added event whose endpoint
method normalizes to CONNECT is rejected, yet applying it to the empty routing
table does change the table — an empty MultiVersionEndpoint entry is created
for its routing key, because the source retrieves or creates the entry before
checking the method. -/
theorem method_reject_c3_counterexample :
    allowedMethods.contains (normalizeEndpoint evConnect.endpoint).httpMethod = false
    ∧ (runEvents []).table "CONNECT#/c" = none
    ∧ keyPresent (runEvents [evConnect]) "CONNECT#/c" = true :=
  ⟨by decide, rfl, by decide⟩

/-- C3 as amended: an event whose normalized endpoint method is outside the
canonical set is rejected — no version slot is updated or deleted anywhere,
every other routing key keeps its entry, and no HTTP handler is registered —
but when the routing key of the event was absent, an empty
MultiVersionEndpoint entry is created for it (version lookups are unaffected
since the fresh entry is empty). -/
theorem method_reject_c3 (s : RouterState) (ev : EndpointEvent)
    (h : allowedMethods.contains (normalizeEndpoint ev.endpoint).httpMethod = false) :
    (handleEvent s ev).registered = s.registered
    ∧ (∀ k v, tableLookup (handleEvent s ev) k v = tableLookup s k v)
    ∧ (∀ k, k ≠ routeKeyOf ev → (handleEvent s ev).table k = s.table k)
    ∧ (∀ m, s.table (routeKeyOf ev) = some m →
        (handleEvent s ev).table (routeKeyOf ev) = some m)
    ∧ (s.table (routeKeyOf ev) = none →
        (handleEvent s ev).table (routeKeyOf ev) = some mveEmpty) := by
  cases hk : s.table (routeKeyOf ev) with
  | some m =>
      have hs : handleEvent s ev = { table := s.table, registered := s.registered } := by
        rw [handleEvent_eq, gve_some s.table (routeKeyOf ev) m hk, if_pos h]
      refine ⟨by rw [hs], ?_, ?_, ?_, ?_⟩
      · intro k v
        rw [hs]
      · intro k _
        rw [hs]
      · intro m2 hm2
        injection hm2 with hmm
        subst hmm
        rw [hs]
        exact hk
      · intro hnone
        exact Option.noConfusion hnone
  | none =>
      have hs : handleEvent s ev
          = { table := tableInsert s.table (routeKeyOf ev) mveEmpty
              registered := s.registered } := by
        rw [handleEvent_eq, gve_none s.table (routeKeyOf ev) hk, if_pos h]
      refine ⟨by rw [hs], ?_, ?_, ?_, ?_⟩
      · intro k v
        rw [hs]
        unfold tableLookup tableInsert
        by_cases hkk : k = routeKeyOf ev
        · subst hkk
          rw [hk]
          simp [mveEmpty]
        · simp [hkk]
      · intro k hkk
        rw [hs]
        unfold tableInsert
        simp [hkk]
      · intro m2 hm2
        exact Option.noConfusion hm2
      · intro _
        rw [hs]
        unfold tableInsert
        simp

/-- Witness for C3 as amended, at the concrete CONNECT event. -/
theorem method_reject_c3_witness :
    allowedMethods.contains (normalizeEndpoint evConnect.endpoint).httpMethod = false
    ∧ tableLookup (handleEvent initialState evConnect) "CONNECT#/c" "v1"
        = tableLookup initialState "CONNECT#/c" "v1" :=
  ⟨by decide,
    (method_reject_c3 initialState evConnect (by decide)).2.1 "CONNECT#/c" "v1"⟩

/-- C5: a Removed event with a supported method deletes exactly the named
version slot of its routing key: the key keeps an entry in the endpoint map
(even when the deleted slot was the last one), every other version slot of the
key is unchanged, every other routing key is untouched, and no registration
activity happens — so the key can be re-populated by later events. -/
theorem removed_frame_c5 (s : RouterState) (ev : EndpointEvent) (m : Mve)
    (htype : ev.type = .removed)
    (hm : allowedMethods.contains (normalizeEndpoint ev.endpoint).httpMethod = true)
    (hkey : s.table (routeKeyOf ev) = some m) :
    (handleEvent s ev).table (routeKeyOf ev)
      = some (mveDelete ev.endpoint.version m)
    ∧ keyPresent (handleEvent s ev) (routeKeyOf ev) = true
    ∧ tableLookup (handleEvent s ev) (routeKeyOf ev) ev.endpoint.version = none
    ∧ (∀ v, v ≠ ev.endpoint.version →
        tableLookup (handleEvent s ev) (routeKeyOf ev) v
          = tableLookup s (routeKeyOf ev) v)
    ∧ (∀ k, k ≠ routeKeyOf ev → (handleEvent s ev).table k = s.table k)
    ∧ (handleEvent s ev).registered = s.registered := by
  have hs : handleEvent s ev
      = { table := tableInsert s.table (routeKeyOf ev)
            (mveDelete ev.endpoint.version m)
          registered := s.registered } := by
    rw [handleEvent_eq, gve_some s.table (routeKeyOf ev) m hkey, htype,
      if_neg (by rw [hm]; simp)]
    rfl
  refine ⟨?_, ?_, ?_, ?_, ?_, by rw [hs]⟩
  · rw [hs]
    unfold tableInsert
    simp
  · rw [hs]
    unfold keyPresent tableInsert
    simp
  · rw [hs]
    unfold tableLookup tableInsert mveDelete
    simp
  · intro v hv
    rw [hs]
    unfold tableLookup tableInsert mveDelete
    simp [hkey, hv]
  · intro k hkk
    rw [hs]
    unfold tableInsert
    simp [hkk]

/-- Witness for C5: removing version v1 from the concrete table that holds it
leaves the routing key present with the v1 slot gone. -/
theorem removed_frame_c5_witness :
    evRemovedGetX.type = .removed
    ∧ (runEvents [evAddedGetX]).table "GET#/x"
        = some (mveUpdate "v1" (normalizeEndpoint epGetV1) mveEmpty)
    ∧ tableLookup (handleEvent (runEvents [evAddedGetX]) evRemovedGetX)
        "GET#/x" "v1" = none
    ∧ keyPresent (handleEvent (runEvents [evAddedGetX]) evRemovedGetX)
        "GET#/x" = true :=
  ⟨rfl, rfl,
    (removed_frame_c5 (runEvents [evAddedGetX]) evRemovedGetX
      (mveUpdate "v1" (normalizeEndpoint epGetV1) mveEmpty)
      rfl (by decide) rfl).2.2.1,
    (removed_frame_c5 (runEvents [evAddedGetX]) evRemovedGetX
      (mveUpdate "v1" (normalizeEndpoint epGetV1) mveEmpty)
      rfl (by decide) rfl).2.1⟩

/-- Pointwise collapse of two insertions at the same key. -/
theorem tableInsert_insert (t : Table) (k : String) (a b : Mve) (k2 : String) :
    tableInsert (tableInsert t k a) k b k2 = tableInsert t k b k2 := by
  unfold tableInsert
  split_ifs <;> rfl

/-- Pointwise collapse of two slot updates at the same version. -/
theorem mveUpdate_update (ver : String) (e : Endpoint) (m : Mve) (v : String) :
    mveUpdate ver e (mveUpdate ver e m) v = mveUpdate ver e m v := by
  unfold mveUpdate
  split_ifs <;> rfl

/-- C4: applying the same Added event twice yields the same routing-table
state as applying it once — the same set of routing keys, and for each key the
same version-to-endpoint mapping. -/
theorem added_idempotent_c4 (s : RouterState) (ev : EndpointEvent)
    (htype : ev.type = .added) :
    (∀ k, keyPresent (handleEvent (handleEvent s ev) ev) k
        = keyPresent (handleEvent s ev) k)
    ∧ (∀ k v, tableLookup (handleEvent (handleEvent s ev) ev) k v
        = tableLookup (handleEvent s ev) k v) := by
  by_cases hm : allowedMethods.contains (normalizeEndpoint ev.endpoint).httpMethod = false
  · -- the event is rejected both times; the second application keeps the
    -- already-present entry and changes nothing
    have step : ∀ m1, (handleEvent s ev).table (routeKeyOf ev) = some m1 →
        handleEvent (handleEvent s ev) ev
          = { table := (handleEvent s ev).table
              registered := (handleEvent s ev).registered } := by
      intro m1 h1
      rw [handleEvent_eq, gve_some _ _ m1 h1, if_pos hm]
    cases hk : s.table (routeKeyOf ev) with
    | some m =>
        have hs1 : handleEvent s ev
            = { table := s.table, registered := s.registered } := by
          rw [handleEvent_eq, gve_some s.table (routeKeyOf ev) m hk, if_pos hm]
        have hs2 := step m (by rw [hs1]; exact hk)
        exact ⟨fun k => by rw [hs2], fun k v => by rw [hs2]⟩
    | none =>
        have hs1 : handleEvent s ev
            = { table := tableInsert s.table (routeKeyOf ev) mveEmpty
                registered := s.registered } := by
          rw [handleEvent_eq, gve_none s.table (routeKeyOf ev) hk, if_pos hm]
        have hs2 := step mveEmpty (by rw [hs1]; unfold tableInsert; simp)
        exact ⟨fun k => by rw [hs2], fun k v => by rw [hs2]⟩
  · -- the event is applied both times; the second update overwrites the first
    -- with the same slot content
    cases hk : s.table (routeKeyOf ev) with
    | some m =>
        have hs1 : handleEvent s ev
            = { table := tableInsert s.table (routeKeyOf ev)
                  (mveUpdate (normalizeEndpoint ev.endpoint).version
                    (normalizeEndpoint ev.endpoint) m)
                registered := s.registered } := by
          rw [handleEvent_eq, gve_some s.table (routeKeyOf ev) m hk, htype,
            if_neg hm]
          rfl
        have hk1 : (handleEvent s ev).table (routeKeyOf ev)
            = some (mveUpdate (normalizeEndpoint ev.endpoint).version
                (normalizeEndpoint ev.endpoint) m) := by
          rw [hs1]
          unfold tableInsert
          simp
        have hs2 : handleEvent (handleEvent s ev) ev
            = { table := tableInsert (handleEvent s ev).table (routeKeyOf ev)
                  (mveUpdate (normalizeEndpoint ev.endpoint).version
                    (normalizeEndpoint ev.endpoint)
                    (mveUpdate (normalizeEndpoint ev.endpoint).version
                      (normalizeEndpoint ev.endpoint) m))
                registered := (handleEvent s ev).registered } := by
          rw [handleEvent_eq, gve_some _ _ _ hk1, htype, if_neg hm]
          rfl
        constructor
        · intro k
          rw [hs2, hs1]
          unfold keyPresent tableInsert
          by_cases hkk : k = routeKeyOf ev <;> simp [hkk]
        · intro k v
          rw [hs2, hs1]
          unfold tableLookup tableInsert
          by_cases hkk : k = routeKeyOf ev
          · simp only [hkk, if_pos rfl]
            exact mveUpdate_update _ _ _ _
          · simp [hkk]
    | none =>
        have hs1 : handleEvent s ev
            = { table := tableInsert
                  (tableInsert s.table (routeKeyOf ev) mveEmpty) (routeKeyOf ev)
                  (mveUpdate (normalizeEndpoint ev.endpoint).version
                    (normalizeEndpoint ev.endpoint) mveEmpty)
                registered := s.registered
                  ++ [(ev.httpMethod, toHttpServerPattern ev.httpPattern)] } := by
          rw [handleEvent_eq, gve_none s.table (routeKeyOf ev) hk, htype,
            if_neg hm]
          rfl
        have hk1 : (handleEvent s ev).table (routeKeyOf ev)
            = some (mveUpdate (normalizeEndpoint ev.endpoint).version
                (normalizeEndpoint ev.endpoint) mveEmpty) := by
          rw [hs1]
          unfold tableInsert
          simp
        have hs2 : handleEvent (handleEvent s ev) ev
            = { table := tableInsert (handleEvent s ev).table (routeKeyOf ev)
                  (mveUpdate (normalizeEndpoint ev.endpoint).version
                    (normalizeEndpoint ev.endpoint)
                    (mveUpdate (normalizeEndpoint ev.endpoint).version
                      (normalizeEndpoint ev.endpoint) mveEmpty))
                registered := (handleEvent s ev).registered } := by
          rw [handleEvent_eq, gve_some _ _ _ hk1, htype, if_neg hm]
          rfl
        constructor
        · intro k
          rw [hs2, hs1]
          unfold keyPresent tableInsert
          by_cases hkk : k = routeKeyOf ev <;> simp [hkk]
        · intro k v
          rw [hs2, hs1]
          unfold tableLookup tableInsert
          by_cases hkk : k = routeKeyOf ev
          · simp only [hkk, if_pos rfl]
            exact mveUpdate_update _ _ _ _
          · simp [hkk]

/-- Witness for C4 at the concrete Added event: the double application agrees
with the single one on the routing key and version of the event. -/
theorem added_idempotent_c4_witness :
    evAddedGetX.type = .added
    ∧ tableLookup (handleEvent (handleEvent initialState evAddedGetX) evAddedGetX)
        "GET#/x" "v1"
      = tableLookup (handleEvent initialState evAddedGetX) "GET#/x" "v1" :=
  ⟨rfl, (added_idempotent_c4 initialState evAddedGetX rfl).2 "GET#/x" "v1"⟩

/-- Counterexample to C2 at a concrete event sequence: when the first event
seen for a routing key is an Updated event, the key is created by that event
but the HTTP handler is never registered — not even by the Added event that
follows — because registration only happens in the Added branch and only while
the entry is new. After draining [Updated, Added] for the same key, the key is
present in the table yet the registration list is empty, contradicting
registration happening exactly once at first creation regardless of the first
event type. -/
theorem route_registration_c2_counterexample :
    (runEvents [evUpdatedGetX, evAddedGetX]).registered = []
    ∧ keyPresent (runEvents [evUpdatedGetX, evAddedGetX]) "GET#/x" = true
    ∧ tableLookup (runEvents [evUpdatedGetX, evAddedGetX]) "GET#/x" "v1"
        = some (normalizeEndpoint epGetV1) := by
  refine ⟨by decide, by decide, by decide⟩

/-- Case analysis of the registration effect of one event: the registration
list gains the (method, pattern) pair of the event exactly when the event is
an Added event with a supported normalized method whose routing key is absent
from the endpoint map; otherwise it is unchanged. -/
theorem handleEvent_registered (s : RouterState) (ev : EndpointEvent) :
    (handleEvent s ev).registered =
      if ev.type = .added
         ∧ allowedMethods.contains (normalizeEndpoint ev.endpoint).httpMethod = true
         ∧ (s.table (routeKeyOf ev)).isNone = true
      then s.registered ++ [(ev.httpMethod, toHttpServerPattern ev.httpPattern)]
      else s.registered := by
  by_cases hc : ev.type = .added
      ∧ allowedMethods.contains (normalizeEndpoint ev.endpoint).httpMethod = true
      ∧ (s.table (routeKeyOf ev)).isNone = true
  · rw [if_pos hc]
    obtain ⟨ht, hcon, hnew⟩ := hc
    have hk : s.table (routeKeyOf ev) = none := Option.isNone_iff_eq_none.mp hnew
    rw [handleEvent_eq, gve_none s.table (routeKeyOf ev) hk, ht,
      if_neg (by rw [hcon]; simp)]
    rfl
  · rw [if_neg hc]
    by_cases hm : allowedMethods.contains (normalizeEndpoint ev.endpoint).httpMethod = false
    · cases hk : s.table (routeKeyOf ev) with
      | some m => rw [handleEvent_eq, gve_some s.table (routeKeyOf ev) m hk, if_pos hm]
      | none => rw [handleEvent_eq, gve_none s.table (routeKeyOf ev) hk, if_pos hm]
    · have hcon : allowedMethods.contains (normalizeEndpoint ev.endpoint).httpMethod
          = true := by
        revert hm
        cases allowedMethods.contains (normalizeEndpoint ev.endpoint).httpMethod <;> simp
      cases ht : ev.type with
      | added =>
          have hk : ∃ m, s.table (routeKeyOf ev) = some m := by
            cases hsk : s.table (routeKeyOf ev) with
            | some m => exact ⟨m, rfl⟩
            | none =>
                exact absurd ⟨ht, hcon, by rw [hsk]; rfl⟩ hc
          obtain ⟨m, hk⟩ := hk
          rw [handleEvent_eq, gve_some s.table (routeKeyOf ev) m hk, ht,
            if_neg (by rw [hcon]; simp)]
          rfl
      | updated =>
          cases hk : s.table (routeKeyOf ev) with
          | some m =>
              rw [handleEvent_eq, gve_some s.table (routeKeyOf ev) m hk, ht,
                if_neg (by rw [hcon]; simp)]
          | none =>
              rw [handleEvent_eq, gve_none s.table (routeKeyOf ev) hk, ht,
                if_neg (by rw [hcon]; simp)]
      | removed =>
          cases hk : s.table (routeKeyOf ev) with
          | some m =>
              rw [handleEvent_eq, gve_some s.table (routeKeyOf ev) m hk, ht,
                if_neg (by rw [hcon]; simp)]
          | none =>
              rw [handleEvent_eq, gve_none s.table (routeKeyOf ev) hk, ht,
                if_neg (by rw [hcon]; simp)]

/-- Table entries are never removed by the event loop: a present key stays
present. -/
theorem handleEvent_table_mono (s : RouterState) (ev : EndpointEvent) (k : String)
    (h : (s.table k).isSome = true) :
    ((handleEvent s ev).table k).isSome = true := by
  by_cases hm : allowedMethods.contains (normalizeEndpoint ev.endpoint).httpMethod = false
  · cases hk : s.table (routeKeyOf ev) with
    | some m =>
        rw [handleEvent_eq, gve_some s.table (routeKeyOf ev) m hk, if_pos hm]
        exact h
    | none =>
        rw [handleEvent_eq, gve_none s.table (routeKeyOf ev) hk, if_pos hm]
        unfold tableInsert
        by_cases hkk : k = routeKeyOf ev <;> simp [hkk, h]
  · have hcon : allowedMethods.contains (normalizeEndpoint ev.endpoint).httpMethod
        = true := by
      revert hm
      cases allowedMethods.contains (normalizeEndpoint ev.endpoint).httpMethod <;> simp
    cases ht : ev.type <;>
      cases hk : s.table (routeKeyOf ev) <;>
        first
        | (rw [handleEvent_eq, gve_some s.table (routeKeyOf ev) _ hk, ht,
             if_neg (by rw [hcon]; simp)]
           unfold tableInsert
           by_cases hkk : k = routeKeyOf ev <;> simp [hkk, h])
        | (rw [handleEvent_eq, gve_none s.table (routeKeyOf ev) hk, ht,
             if_neg (by rw [hcon]; simp)]
           unfold tableInsert
           by_cases hkk : k = routeKeyOf ev <;> simp [hkk, h])

/-- After an event is handled, its routing key is present in the endpoint map. -/
theorem handleEvent_key_present (s : RouterState) (ev : EndpointEvent) :
    ((handleEvent s ev).table (routeKeyOf ev)).isSome = true := by
  by_cases hm : allowedMethods.contains (normalizeEndpoint ev.endpoint).httpMethod = false
  · cases hk : s.table (routeKeyOf ev) with
    | some m =>
        rw [handleEvent_eq, gve_some s.table (routeKeyOf ev) m hk, if_pos hm]
        rw [hk]
        rfl
    | none =>
        rw [handleEvent_eq, gve_none s.table (routeKeyOf ev) hk, if_pos hm]
        unfold tableInsert
        simp
  · have hcon : allowedMethods.contains (normalizeEndpoint ev.endpoint).httpMethod
        = true := by
      revert hm
      cases allowedMethods.contains (normalizeEndpoint ev.endpoint).httpMethod <;> simp
    cases ht : ev.type <;>
      cases hk : s.table (routeKeyOf ev) <;>
        first
        | (rw [handleEvent_eq, gve_some s.table (routeKeyOf ev) _ hk, ht,
             if_neg (by rw [hcon]; simp)]
           unfold tableInsert
           simp)
        | (rw [handleEvent_eq, gve_none s.table (routeKeyOf ev) hk, ht,
             if_neg (by rw [hcon]; simp)]
           unfold tableInsert
           simp)

/-- Counting registrations across an append of a single record. -/
theorem countKey_append (l : List (String × String)) (x : String × String)
    (k : String) :
    countKey (l ++ [x]) k = countKey l k + (if regKeyOf x == k then 1 else 0) := by
  cases h : (regKeyOf x == k) <;>
    simp [countKey, List.filter_append, List.filter, h]

/-- One event preserves the registration invariant. -/
theorem regInv_step (s : RouterState) (ev : EndpointEvent) (h : RegInv s) :
    RegInv (handleEvent s ev) := by
  intro k
  have hr := handleEvent_registered s ev
  by_cases hc : ev.type = .added
      ∧ allowedMethods.contains (normalizeEndpoint ev.endpoint).httpMethod = true
      ∧ (s.table (routeKeyOf ev)).isNone = true
  · rw [if_pos hc] at hr
    have hkn : s.table (routeKeyOf ev) = none :=
      Option.isNone_iff_eq_none.mp hc.2.2
    have hcount0 : countKey s.registered (routeKeyOf ev) = 0 := by
      by_contra hne
      have hpos := (h (routeKeyOf ev)).2 (Nat.pos_of_ne_zero hne)
      rw [hkn] at hpos
      exact absurd hpos (by simp)
    have hxkey : regKeyOf (ev.httpMethod, toHttpServerPattern ev.httpPattern)
        = routeKeyOf ev := rfl
    constructor
    · rw [hr, countKey_append]
      by_cases hkk : (regKeyOf (ev.httpMethod, toHttpServerPattern ev.httpPattern) == k)
          = true
      · have hkeq : routeKeyOf ev = k := by
          rw [← hxkey]
          exact beq_iff_eq.mp hkk
        rw [if_pos hkk, ← hkeq, hcount0]
      · rw [if_neg (by simpa using hkk)]
        simpa using (h k).1
    · intro hpos
      by_cases hkk2 : k = routeKeyOf ev
      · subst hkk2
        exact handleEvent_key_present s ev
      · have hbne : (regKeyOf (ev.httpMethod, toHttpServerPattern ev.httpPattern) == k)
            = false := by
          rw [hxkey]
          exact beq_eq_false_iff_ne.mpr (fun heq => hkk2 heq.symm)
        rw [hr, countKey_append, hbne] at hpos
        simp at hpos
        exact handleEvent_table_mono s ev k ((h k).2 hpos)
  · rw [if_neg hc] at hr
    exact ⟨by rw [hr]; exact (h k).1,
      fun hpos => handleEvent_table_mono s ev k ((h k).2 (by rwa [hr] at hpos))⟩

/-- The registration invariant holds along any event fold. -/
theorem regInv_foldl :
    ∀ (evs : List EndpointEvent) (s : RouterState),
      RegInv s → RegInv (evs.foldl handleEvent s)
  | [], _, h => h
  | ev :: rest, s, h => regInv_foldl rest (handleEvent s ev) (regInv_step s ev h)

/-- The registration invariant holds initially. -/
theorem regInv_initial : RegInv initialState := by
  intro k
  refine ⟨by simp [countKey, initialState], ?_⟩
  intro hpos
  simp [countKey, initialState] at hpos

/-- C2 as amended: over any drained event sequence every routing key is
registered with the embedded HTTP server at most once, a single event only
ever appends one registration and never removes one (handlers are never
unregistered), and a registration happens exactly when the event is an Added
event with a supported normalized method whose routing key is not yet in the
endpoint map — so a key first created by an Updated, Removed or
rejected-method event is never registered, not even by later Added events. -/
theorem route_registration_c2 :
    (∀ evs k, countKey (runEvents evs).registered k ≤ 1)
    ∧ (∀ s ev, (handleEvent s ev).registered = s.registered
        ∨ (handleEvent s ev).registered
            = s.registered ++ [(ev.httpMethod, toHttpServerPattern ev.httpPattern)])
    ∧ (∀ s ev, (handleEvent s ev).registered ≠ s.registered
        ↔ (ev.type = .added
           ∧ allowedMethods.contains (normalizeEndpoint ev.endpoint).httpMethod = true
           ∧ (s.table (routeKeyOf ev)).isNone = true)) := by
  refine ⟨?_, ?_, ?_⟩
  · intro evs k
    exact (regInv_foldl evs initialState regInv_initial k).1
  · intro s ev
    have hr := handleEvent_registered s ev
    by_cases hc : ev.type = .added
        ∧ allowedMethods.contains (normalizeEndpoint ev.endpoint).httpMethod = true
        ∧ (s.table (routeKeyOf ev)).isNone = true
    · right
      rw [hr, if_pos hc]
    · left
      rw [hr, if_neg hc]
  · intro s ev
    have hr := handleEvent_registered s ev
    by_cases hc : ev.type = .added
        ∧ allowedMethods.contains (normalizeEndpoint ev.endpoint).httpMethod = true
        ∧ (s.table (routeKeyOf ev)).isNone = true
    · rw [hr, if_pos hc]
      constructor
      · intro _
        exact hc
      · intro _ heq
        have hlen := congrArg List.length heq
        simp at hlen
    · rw [hr, if_neg hc]
      constructor
      · intro hne
        exact absurd rfl hne
      · intro hcc
        exact absurd hcc hc

end Flux
